import Mathlib

/-!
Shallow embedding of the service-worker caching layer of the `meteora`
(WeatherFlow) repository, file `sw.js` (`src/unnamed/part_000`), together
with theorems settling the frozen claims about it.

Modelling conventions:
* JS strings are Lean `String`s; `String.prototype.includes` is `strIncludes`.
* A `Response` carries status, statusText, headers, and body.  The single
  header the code reads back programmatically, `sw-cache-timestamp`, is
  modelled as the distinguished field `swTimestamp : Option Nat`: the code
  writes it as `Date.now().toString()` and reads it with `parseInt`, an
  exact round trip on the integer millisecond clock, so the field stands
  for that header (`none` = header absent).
* The Cache Storage API is explicit state: an ordered list of named caches,
  each an association list from request URL to stored response.
  `caches.match` scans all caches in order; `cache.match` is scoped to one.
* `fetch` is an oracle `String → Option Response`: `none` is a network
  transport failure (the promise rejects), `some r` a completed response
  (possibly non-2xx).
* Async handlers become pure state-passing functions returning a
  `HandlerResult`: the response handed to `event.respondWith`, the cache
  storage after the handler settles, the URLs fetched on the response
  path (`netFetches`), and background refetches issued (`bgFetches`).
-/

/-- JS `needle` is a prefix of `hay` (character lists). -/
def isPrefixB : List Char → List Char → Bool
  | [], _ => true
  | _ :: _, [] => false
  | n :: ns, h :: hs => n == h && isPrefixB ns hs

/-- `needle` occurs contiguously inside `hay`. -/
def containsB (needle : List Char) : List Char → Bool
  | [] => needle.isEmpty
  | h :: hs => isPrefixB needle (h :: hs) || containsB needle hs

/-- JS `s.includes(sub)`: substring containment. -/
def strIncludes (s sub : String) : Bool :=
  containsB sub.toList s.toList

/-- `const CACHE_NAME = 'weatherflow-v1.0.0'` (sw.js line 2). -/
def CACHE_NAME : String := "weatherflow-v1.0.0"

/-- `STATIC_CACHE_URLS` (sw.js lines 3-17): the fixed build-time manifest. -/
def STATIC_CACHE_URLS : List String :=
  [ "/",
    "/index.html",
    "/styles.css",
    "/js/main.js",
    "/js/api.js",
    "/js/state.js",
    "/js/ui.js",
    "/js/charts.js",
    "/manifest.webmanifest",
    "https://cdn.tailwindcss.com",
    "https://cdn.jsdelivr.net/npm/chart.js",
    "https://cdn.jsdelivr.net/npm/dayjs@1/dayjs.min.js",
    "https://cdn.jsdelivr.net/npm/dayjs@1/plugin/relativeTime.js" ]

/-- `const API_CACHE_DURATION = 10 * 60 * 1000` (10 minutes, ms). -/
def API_CACHE_DURATION : Int := 10 * 60 * 1000

/-- `const STATIC_CACHE_DURATION = 24 * 60 * 60 * 1000` (24 hours, ms). -/
def STATIC_CACHE_DURATION : Int := 24 * 60 * 60 * 1000

/-- The cache name used by `handleApiRequest`: `` `${CACHE_NAME}-api` ``. -/
def apiNamespace : String := CACHE_NAME ++ "-api"

/-- The cache name used by `handleDynamicRequest`: `` `${CACHE_NAME}-dynamic` ``. -/
def dynNamespace : String := CACHE_NAME ++ "-dynamic"

/-- A JS `Response`.  `swTimestamp` models the `sw-cache-timestamp` header. -/
structure Response where
  status : Nat
  statusText : String
  headers : List (String × String)
  swTimestamp : Option Nat
  body : String
deriving DecidableEq, Repr

/-- JS `Response.ok`: status in the inclusive range 200-299. -/
def Response.ok (r : Response) : Bool :=
  decide (200 ≤ r.status ∧ r.status ≤ 299)

/-- An intercepted request: its absolute URL, the hostname component of that
URL (JS `new URL(request.url).hostname`), the method, and the value of its
`accept` header (`none` = header absent). -/
structure Request where
  url : String
  hostname : String
  method : String
  accept : Option String
deriving DecidableEq, Repr

/-- The three request classes of the fetch-event dispatch. -/
inductive RequestClass
  | api
  | static
  | dynamic
deriving DecidableEq, Repr

/-- The hostname allow-list test of sw.js line 74:
`url.hostname.includes('open-meteo.com') ||
 url.hostname.includes('geocoding-api.open-meteo.com')`. -/
def hostAllowed (req : Request) : Bool :=
  strIncludes req.hostname "open-meteo.com" ||
    strIncludes req.hostname "geocoding-api.open-meteo.com"

/-- The dispatch of the fetch event handler (sw.js lines 73-84): which of the
three strategy handlers `event.respondWith` is given for a GET request.
The static test is sw.js line 78:
`STATIC_CACHE_URLS.some(staticUrl => request.url.includes(staticUrl))`. -/
def classify (req : Request) : RequestClass :=
  if hostAllowed req then RequestClass.api
  else if STATIC_CACHE_URLS.any (fun u => strIncludes req.url u) then RequestClass.static
  else RequestClass.dynamic

/-- One named cache: an association list from request URL to stored response
(at most one entry per key is maintained by `entryPut`). -/
abbrev Cache := List (String × Response)

/-- The Cache Storage: named caches in creation order. -/
abbrev CacheStorage := List (String × Cache)

/-- `cache.match(request)` inside one cache: first entry with the given URL. -/
def cacheFind : Cache → String → Option Response
  | [], _ => none
  | (k, r) :: rest, url => if k == url then some r else cacheFind rest url

/-- `caches.open(name)`: returns the storage with the named cache present
(created empty at the end if absent). -/
def cachesOpen (st : CacheStorage) (name : String) : CacheStorage :=
  if st.any (fun c => c.1 == name) then st else st ++ [(name, [])]

/-- `cache.match(request)` on the cache obtained from `caches.open(name)`. -/
def cacheMatch (st : CacheStorage) (name url : String) : Option Response :=
  match st.find? (fun c => c.1 == name) with
  | some c => cacheFind c.2 url
  | none => none

/-- `caches.match(request)`: scan all caches in order, first hit wins. -/
def cachesMatch (st : CacheStorage) (url : String) : Option Response :=
  match st with
  | [] => none
  | (_, entries) :: rest =>
    match cacheFind entries url with
    | some r => some r
    | none => cachesMatch rest url

/-- `cache.put(request, response)` inside one cache: last write wins. -/
def entryPut : Cache → String → Response → Cache
  | [], url, r => [(url, r)]
  | (k, old) :: rest, url, r =>
    if k == url then (url, r) :: rest else (k, old) :: entryPut rest url r

/-- `cache.put` on the cache named `name`. -/
def cachePut (st : CacheStorage) (name url : String) (r : Response) : CacheStorage :=
  st.map (fun c => if c.1 == name then (c.1, entryPut c.2 url r) else c)

/-- `cache.delete(request)` inside one cache. -/
def entryDelete : Cache → String → Cache
  | [], _ => []
  | (k, old) :: rest, url => if k == url then rest else (k, old) :: entryDelete rest url

/-- `cache.delete` on the cache named `name`. -/
def cacheDelete (st : CacheStorage) (name url : String) : CacheStorage :=
  st.map (fun c => if c.1 == name then (c.1, entryDelete c.2 url) else c)

/-- The freshness predicate both handlers inline:
`(Date.now() - parseInt(cacheTimestamp)) > DURATION`
(sw.js lines 125 and 158).  Strict inequality. -/
def isExpired (storedAt now ttl : Int) : Bool :=
  decide (now - storedAt > ttl)

/-- The `responseWithTimestamp` construction (sw.js lines 101-108, 175-182,
257-264): same status, statusText, headers and body, with the
`sw-cache-timestamp` header set to the current time. -/
def withTimestamp (r : Response) (now : Nat) : Response :=
  { r with swTimestamp := some now }

/-- Result of running one strategy handler to completion: the response given
to `event.respondWith`, the cache storage afterwards, the URLs fetched on
the response path, and background refetches actually issued. -/
structure HandlerResult where
  response : Response
  storage : CacheStorage
  netFetches : List String
  bgFetches : List String
deriving DecidableEq, Repr

/-- The synthesized offline response of `handleApiRequest` (sw.js lines
137-146): status 503, JSON body with the `offline: true` flag. -/
def offlineApiResponse : Response :=
  { status := 503
    statusText := ""
    headers := [("Content-Type", "application/json")]
    swTimestamp := none
    body := "\x7b\"error\":\"Network unavailable and no cached data\",\"offline\":true\x7d" }

/-- The plain `new Response('Service Unavailable', { status: 503 })`
(sw.js lines 222 and 246). -/
def serviceUnavailableResponse : Response :=
  { status := 503
    statusText := ""
    headers := []
    swTimestamp := none
    body := "Service Unavailable" }

/-- The self-contained offline HTML page of `handleStaticRequest`
(sw.js lines 199-219); status defaults to 200. -/
def offlineHtmlResponse : Response :=
  { status := 200
    statusText := ""
    headers := [("Content-Type", "text/html")]
    swTimestamp := none
    body := "<!DOCTYPE html>\n<html>\n<head>\n  <title>Offline - WeatherFlow</title>\n  <meta name=\"viewport\" content=\"width=device-width, initial-scale=1.0\">\n  <style>\n    body \x7b font-family: system-ui; text-align: center; padding: 50px; \x7d\n    h1 \x7b color: #3B82F6; \x7d\n  </style>\n</head>\n<body>\n  <h1>You\x27re offline</h1>\n  <p>WeatherFlow requires an internet connection to fetch weather data.</p>\n  <button onclick=\"location.reload()\">Try Again</button>\n</body>\n</html>" }

/-- The `catch` block of `handleApiRequest` (sw.js lines 115-147): open the
api cache, look the request up there, serve it if not expired, delete it if
expired, and otherwise synthesize the offline JSON response.
`attempted` records the network fetch already made in the `try` block. -/
def handleApiFallback (now : Nat) (st : CacheStorage) (req : Request)
    (attempted : List String) : HandlerResult :=
  let st1 := cachesOpen st apiNamespace
  match cacheMatch st1 apiNamespace req.url with
  | some cached =>
    let isExp : Bool :=
      match cached.swTimestamp with
      | some ts => isExpired (ts : Int) (now : Int) API_CACHE_DURATION
      | none => false
    if !isExp then
      { response := cached, storage := st1, netFetches := attempted, bgFetches := [] }
    else
      { response := offlineApiResponse
        storage := cacheDelete st1 apiNamespace req.url
        netFetches := attempted
        bgFetches := [] }
  | none =>
    { response := offlineApiResponse, storage := st1
      netFetches := attempted, bgFetches := [] }

/-- `handleApiRequest` (sw.js lines 88-148): network first; a 2xx response is
stamped and written to the api cache and returned; a transport failure or a
completed non-2xx response (the explicit `throw` on line 114) both land in
the shared `catch` block `handleApiFallback`. -/
def handleApiRequest (f : String → Option Response) (now : Nat)
    (st : CacheStorage) (req : Request) : HandlerResult :=
  match f req.url with
  | some nr =>
    if nr.ok then
      let st1 := cachesOpen st apiNamespace
      let st2 := cachePut st1 apiNamespace req.url (withTimestamp nr now)
      { response := nr, storage := st2, netFetches := [req.url], bgFetches := [] }
    else handleApiFallback now st req [req.url]
  | none => handleApiFallback now st req [req.url]

/-- The `catch` block of `handleStaticRequest` (sw.js lines 188-223): try the
whole-storage `caches.match` again; failing that, serve the offline HTML page
when the request's `accept` header contains `text/html`
(`request.headers.get('accept')?.includes('text/html')`), else a plain 503. -/
def staticCatchFallback (st : CacheStorage) (req : Request)
    (attempted : List String) : HandlerResult :=
  match cachesMatch st req.url with
  | some cached =>
    { response := cached, storage := st, netFetches := attempted, bgFetches := [] }
  | none =>
    match req.accept with
    | some a =>
      if strIncludes a "text/html" then
        { response := offlineHtmlResponse, storage := st
          netFetches := attempted, bgFetches := [] }
      else
        { response := serviceUnavailableResponse, storage := st
          netFetches := attempted, bgFetches := [] }
    | none =>
      { response := serviceUnavailableResponse, storage := st
        netFetches := attempted, bgFetches := [] }

/-- `handleStaticRequest` (sw.js lines 151-224): cache first via the
whole-storage `caches.match`.  On a hit, compute `shouldUpdate`
(sw.js line 158: `!cacheTimestamp || (Date.now() - parseInt(cacheTimestamp))
> STATIC_CACHE_DURATION`).  When `shouldUpdate` is true, sw.js line 162
evaluates the identifier `event`, which has no binding inside this function
and no global binding in `ServiceWorkerGlobalScope`; the ReferenceError this
raises is caught by the function's own `catch` block before any background
work starts, so control continues in `staticCatchFallback` with the storage
untouched and no fetch issued.  On a miss, fetch synchronously: a 2xx
response is stamped and stored in `CACHE_NAME`; a completed non-2xx response
is returned unchanged and uncached; a transport failure lands in the
`catch` block. -/
def handleStaticRequest (f : String → Option Response) (now : Nat)
    (st : CacheStorage) (req : Request) : HandlerResult :=
  match cachesMatch st req.url with
  | some cached =>
    let shouldUpdate : Bool :=
      match cached.swTimestamp with
      | none => true
      | some ts => isExpired (ts : Int) (now : Int) STATIC_CACHE_DURATION
    if shouldUpdate then
      staticCatchFallback st req []
    else
      { response := cached, storage := st, netFetches := [], bgFetches := [] }
  | none =>
    match f req.url with
    | some nr =>
      if nr.ok then
        let st1 := cachesOpen st CACHE_NAME
        let st2 := cachePut st1 CACHE_NAME req.url (withTimestamp nr now)
        { response := nr, storage := st2, netFetches := [req.url], bgFetches := [] }
      else
        { response := nr, storage := st, netFetches := [req.url], bgFetches := [] }
    | none => staticCatchFallback st req [req.url]

/-- `updateStaticCache` (sw.js lines 251-272): refetch, and on a 2xx response
stamp and store it in `CACHE_NAME`; any failure is logged and swallowed.
Defined for reference: no reachable code path of `handleStaticRequest`
ever invokes it (see the doc comment there). -/
def updateStaticCache (f : String → Option Response) (now : Nat)
    (st : CacheStorage) (url : String) : CacheStorage :=
  match f url with
  | some nr =>
    if nr.ok then cachePut (cachesOpen st CACHE_NAME) CACHE_NAME url (withTimestamp nr now)
    else st
  | none => st

/-- `handleDynamicRequest` (sw.js lines 227-248): network first; a 2xx
response is stored raw (no timestamp header is added, sw.js line 234) in the
dynamic cache and returned; a completed non-2xx response is returned
unchanged and uncached; on a transport failure the whole-storage
`caches.match` is consulted, and failing that a plain 503 is returned. -/
def handleDynamicRequest (f : String → Option Response)
    (st : CacheStorage) (req : Request) : HandlerResult :=
  match f req.url with
  | some nr =>
    if nr.ok then
      let st1 := cachesOpen st dynNamespace
      let st2 := cachePut st1 dynNamespace req.url nr
      { response := nr, storage := st2, netFetches := [req.url], bgFetches := [] }
    else
      { response := nr, storage := st, netFetches := [req.url], bgFetches := [] }
  | none =>
    match cachesMatch st req.url with
    | some cached =>
      { response := cached, storage := st, netFetches := [req.url], bgFetches := [] }
    | none =>
      { response := serviceUnavailableResponse, storage := st
        netFetches := [req.url], bgFetches := [] }

/-- Whether `fetch(u)` completes with an ok (2xx) response: the condition
under which `cache.add`/`cache.addAll` accepts the URL. -/
def fetchOk (f : String → Option Response) (u : String) : Bool :=
  match f u with
  | some r => r.ok
  | none => false

/-- `cache.addAll(urls)` (sw.js line 30): fetch every URL; if every fetch
completes with an ok response, store them all; otherwise reject (`none`)
without publishing any partial state — the batch is atomic. -/
def addAll (f : String → Option Response) (name : String) :
    CacheStorage → List String → Option CacheStorage
  | st, [] => some st
  | st, u :: us =>
    match f u with
    | some r => if r.ok then addAll f name (cachePut st name u r) us else none
    | none => none

/-- Result of the install event handler. -/
structure InstallResult where
  storage : CacheStorage
  installSucceeded : Bool
  skipWaitingCalled : Bool
deriving DecidableEq, Repr

/-- The install event handler (sw.js lines 23-39):
`caches.open(CACHE_NAME).then(cache => cache.addAll(STATIC_CACHE_URLS))
.then(() => self.skipWaiting()).catch(error => console.error(...))`.
The final `.catch` turns any `addAll` rejection into a resolved promise, so
the value passed to `event.waitUntil` always resolves and the install step
always completes successfully; on the failure path `skipWaiting` is skipped
and no entry was stored. -/
def onInstall (f : String → Option Response) (st : CacheStorage) : InstallResult :=
  let st1 := cachesOpen st CACHE_NAME
  match addAll f CACHE_NAME st1 STATIC_CACHE_URLS with
  | some st2 =>
    { storage := st2, installSucceeded := true, skipWaitingCalled := true }
  | none =>
    { storage := st1, installSucceeded := true, skipWaitingCalled := false }

/-- Observable lifecycle events of the activate handler, in order. -/
inductive LifecycleEv
  | deleteCache (name : String)
  | claimClients
deriving DecidableEq, Repr

/-- Result of the activate event handler: the surviving storage and the
ordered trace of observable events. -/
structure ActivateResult where
  storage : CacheStorage
  events : List LifecycleEv
deriving DecidableEq, Repr

/-- The activate event handler (sw.js lines 42-61): enumerate `caches.keys()`,
delete every cache whose name differs from the literal `CACHE_NAME`
(`if (cacheName !== CACHE_NAME) return caches.delete(cacheName)`), and only
after `Promise.all` of those deletions resolves call `self.clients.claim()`. -/
def onActivate (st : CacheStorage) : ActivateResult :=
  { storage := st.filter (fun c => c.1 == CACHE_NAME)
    events :=
      ((st.map Prod.fst).filter (fun n => !(n == CACHE_NAME))).map LifecycleEv.deleteCache
        ++ [LifecycleEv.claimClients] }

/-- The three cache names the code ever creates for the version whose base
cache name is `v`: `v` itself (sw.js line 27), `` `${v}-api` `` (line 89)
and `` `${v}-dynamic` `` (line 233).  These are the namespaces belonging to
that version. -/
def versionNamespaces (v : String) : List String :=
  [v, v ++ "-api", v ++ "-dynamic"]

/-! ### Helper lemmas about the cache model -/

theorem cacheFind_entryPut (c : Cache) (u : String) (r : Response) :
    cacheFind (entryPut c u r) u = some r := by
  induction c with
  | nil => simp [entryPut, cacheFind]
  | cons hd tl ih =>
    obtain ⟨k, old⟩ := hd
    by_cases h : k == u
    · simp [entryPut, h, cacheFind]
    · simp only [entryPut, h, if_neg, Bool.false_eq_true, not_false_eq_true, cacheFind]
      simp only [Bool.not_eq_true] at h
      simp [cacheFind, h, ih]

theorem cacheMatch_cachePut_of_present (st : CacheStorage) (n u : String)
    (r : Response) (h : st.any (fun c => c.1 == n) = true) :
    cacheMatch (cachePut st n u r) n u = some r := by
  induction st with
  | nil => simp at h
  | cons hd tl ih =>
    obtain ⟨k, entries⟩ := hd
    by_cases hk : k == n
    · simp [cachePut, cacheMatch, hk, List.find?, cacheFind_entryPut]
    · simp only [List.any_cons, hk, Bool.false_or] at h
      simpa [cachePut, cacheMatch, List.find?, hk] using ih h

theorem any_cachesOpen (st : CacheStorage) (n : String) :
    (cachesOpen st n).any (fun c => c.1 == n) = true := by
  unfold cachesOpen
  by_cases h : st.any (fun c => c.1 == n) = true
  · simp [h]
  · simp [h]

theorem cacheMatch_cachePut_open (st : CacheStorage) (n u : String) (r : Response) :
    cacheMatch (cachePut (cachesOpen st n) n u r) n u = some r :=
  cacheMatch_cachePut_of_present _ n u r (any_cachesOpen st n)

theorem addAll_eq_none (f : String → Option Response) (name : String)
    (urls : List String) :
    ∀ st : CacheStorage, (∃ u ∈ urls, fetchOk f u = false) →
      addAll f name st urls = none := by
  induction urls with
  | nil => intro st h; simp at h
  | cons u us ih =>
    intro st h
    obtain ⟨v, hv, hfail⟩ := h
    unfold addAll
    cases hf : f v with
    | none =>
      rcases List.mem_cons.mp hv with rfl | hmem
      · simp [hf]
      · cases hfu : f u with
        | none => simp
        | some r =>
          by_cases hok : r.ok
          · simp only [hok, if_pos]
            exact ih _ ⟨v, hmem, by simp [fetchOk, hf]⟩
          · simp [hok]
    | some rv =>
      have hrv : rv.ok = false := by
        simpa [fetchOk, hf] using hfail
      rcases List.mem_cons.mp hv with rfl | hmem
      · simp [hf, hrv]
      · cases hfu : f u with
        | none => simp
        | some r =>
          by_cases hok : r.ok
          · simp only [hok, if_pos]
            exact ih _ ⟨v, hmem, by simp [fetchOk, hf, hrv]⟩
          · simp [hok]

theorem static_hit_result (f : String → Option Response) (now : Nat)
    (st : CacheStorage) (req : Request) (c : Response)
    (h : cachesMatch st req.url = some c) :
    handleStaticRequest f now st req =
      { response := c, storage := st, netFetches := [], bgFetches := [] } := by
  unfold handleStaticRequest staticCatchFallback
  rw [h]
  split
  · next r heq =>
    cases heq
    split
    · rfl
    · split
      · next r2 heq2 =>
        cases heq2
        exact ite_self _
      · next heq2 => exact Option.noConfusion heq2
  · next heq => exact Option.noConfusion heq

/-! ### Concrete fixtures used by counterexamples and witnesses -/

/-- A GET request outside both the host allow-list and the static manifest. -/
def exampleReq : Request :=
  { url := "https://example.org/logo.png", hostname := "example.org"
    method := "GET", accept := none }

/-- A generic cached 200 response carrying a timestamp. -/
def sampleEntry : Response :=
  { status := 200, statusText := "OK", headers := [], swTimestamp := some 5
    body := "cached-body" }

/-- A generic GET request used to exercise the handlers. -/
def sampleReq : Request :=
  { url := "https://example.org/data", hostname := "example.org"
    method := "GET", accept := none }

/-- A completed 404 response (non-2xx, so `ok` is false). -/
def notFoundResponse : Response :=
  { status := 404, statusText := "Not Found", headers := [], swTimestamp := none
    body := "nope" }

/-- A fresh 200 network response with no timestamp header. -/
def okNetResponse : Response :=
  { status := 200, statusText := "OK", headers := [], swTimestamp := none
    body := "net-body" }

/-! ### C1: install-time prefetch atomicity -/

/-- C1, counterexample to the claim as stated.  The claim says that an
install in which fetching some manifest URL fails must itself fail.  With
the oracle that fails every fetch, the manifest URL `/` fails to fetch, yet
`onInstall` still reports success, because the trailing `.catch` in the
install handler swallows the `addAll` rejection. -/
theorem install_atomicity_counterexample :
    fetchOk (fun _ => none) "/" = false ∧
    "/" ∈ STATIC_CACHE_URLS ∧
    (onInstall (fun _ => none) []).installSucceeded = true := by
  decide

/-- C1, amended: if fetching any manifest URL fails (transport failure or
non-2xx), `cache.addAll` rejects atomically, so no entry at all is stored in
the new namespace — no partially populated static namespace is ever
produced — but the rejection is caught by the install handler's `.catch`,
so the install step nonetheless completes successfully, with
`skipWaiting` not invoked. -/
theorem install_failure_amended (f : String → Option Response)
    (st : CacheStorage) (h : ∃ u ∈ STATIC_CACHE_URLS, fetchOk f u = false) :
    (onInstall f st).installSucceeded = true ∧
    (onInstall f st).skipWaitingCalled = false ∧
    (onInstall f st).storage = cachesOpen st CACHE_NAME := by
  have hnone := addAll_eq_none f CACHE_NAME STATIC_CACHE_URLS (cachesOpen st CACHE_NAME) h
  simp [onInstall, hnone]

/-- C1, witness for `install_failure_amended` at the all-failing oracle and
empty storage. -/
theorem install_failure_amended_witness :
    (onInstall (fun _ => none) []).installSucceeded = true ∧
    (onInstall (fun _ => none) []).skipWaitingCalled = false ∧
    (onInstall (fun _ => none) []).storage = cachesOpen [] CACHE_NAME :=
  install_failure_amended (fun _ => none) [] ⟨"/", by decide, rfl⟩

/-! ### C3: request classification -/

/-- C3, counterexample to the claim as stated.  `exampleReq` is a GET
request whose hostname matches no allow-listed host under any reading and
whose URL is not a member of the static manifest, so the claim requires
class `dynamic`; the code classifies it `static`, because the static test is
substring containment (`request.url.includes(staticUrl)`) and the manifest
contains `"/"`, a substring of every absolute URL. -/
theorem classify_membership_counterexample :
    exampleReq.method = "GET" ∧
    hostAllowed exampleReq = false ∧
    exampleReq.hostname ∉ ["open-meteo.com", "geocoding-api.open-meteo.com"] ∧
    exampleReq.url ∉ STATIC_CACHE_URLS ∧
    classify exampleReq = RequestClass.static := by
  decide

/-- C3, amended: classification keeps the stated order, but both membership
tests are substring containment, not list membership.  Consequently, for
every request whose URL contains the character `/` (every absolute URL), the
class is `api` when the hostname contains an allow-listed host and `static`
otherwise — the `dynamic` branch is unreachable for such requests. -/
theorem classify_substring_amended (req : Request)
    (h : strIncludes req.url "/" = true) :
    classify req =
      (if hostAllowed req then RequestClass.api else RequestClass.static) := by
  unfold classify
  by_cases hh : hostAllowed req
  · simp [hh]
  · have hany : STATIC_CACHE_URLS.any (fun u => strIncludes req.url u) = true :=
      List.any_eq_true.mpr ⟨"/", by decide, h⟩
    simp [hh, hany]

/-- C3, witness for `classify_substring_amended` at `exampleReq`. -/
theorem classify_substring_amended_witness :
    classify exampleReq =
      (if hostAllowed exampleReq then RequestClass.api else RequestClass.static) :=
  classify_substring_amended exampleReq (by decide)

/-! ### C4: activate-time garbage collection -/

/-- C4, counterexample to the claim as stated.  The claim says no namespace
belonging to the activating version is deleted.  `apiNamespace`
(`weatherflow-v1.0.0-api`) belongs to the activating version
(`versionNamespaces CACHE_NAME`), yet when it is present at activation the
handler deletes it, because the deletion test is `cacheName !== CACHE_NAME`. -/
theorem activate_deletes_own_namespace_counterexample :
    apiNamespace ∈ versionNamespaces CACHE_NAME ∧
    LifecycleEv.deleteCache apiNamespace ∈
      (onActivate [(CACHE_NAME, []), (apiNamespace, [])]).events := by
  decide

/-- C4, amended: on activation every cache whose name differs from the
literal `CACHE_NAME` is deleted — including the activating version's own
`-api` and `-dynamic` namespaces when present — the cache named exactly
`CACHE_NAME` is never deleted, all deletions are issued before
`clients.claim` lets the new version control already-open clients, and a
cache survives into the resulting storage exactly when it was present and
named `CACHE_NAME`. -/
theorem activate_cleanup_amended (st : CacheStorage) :
    (∀ n, n ∈ st.map Prod.fst → n ≠ CACHE_NAME →
        LifecycleEv.deleteCache n ∈ (onActivate st).events) ∧
    LifecycleEv.deleteCache CACHE_NAME ∉ (onActivate st).events ∧
    (∃ ds : List String,
        (onActivate st).events
          = ds.map LifecycleEv.deleteCache ++ [LifecycleEv.claimClients]) ∧
    (∀ c, c ∈ (onActivate st).storage ↔ (c ∈ st ∧ c.1 = CACHE_NAME)) := by
  refine ⟨?_, ?_, ?_, ?_⟩
  · intro n hn hne
    have h1 : n ∈ (st.map Prod.fst).filter (fun m => !(m == CACHE_NAME)) :=
      List.mem_filter.mpr ⟨hn, by simpa using hne⟩
    have h2 : LifecycleEv.deleteCache n ∈
        ((st.map Prod.fst).filter (fun m => !(m == CACHE_NAME))).map
          LifecycleEv.deleteCache :=
      List.mem_map.mpr ⟨n, h1, rfl⟩
    exact List.mem_append.mpr (Or.inl h2)
  · simp [onActivate, List.mem_filter]
  · exact ⟨(st.map Prod.fst).filter (fun n => !(n == CACHE_NAME)), rfl⟩
  · intro c
    simp [onActivate, List.mem_filter]

/-- C4, witness for `activate_cleanup_amended`: with a stale cache
`"old-cache"` alongside the current one, the stale cache is deleted. -/
theorem activate_cleanup_amended_witness :
    LifecycleEv.deleteCache "old-cache" ∈
      (onActivate [(CACHE_NAME, []), ("old-cache", [])]).events :=
  (activate_cleanup_amended [(CACHE_NAME, []), ("old-cache", [])]).1
    "old-cache" (by decide) (by decide)

/-! ### C8: strict freshness boundary -/

/-- C8: the freshness predicate used by both handlers is the strict
comparison `now - storedAt > ttl`; an entry aged exactly `ttl` is still
fresh, and any strictly greater age is expired. -/
theorem freshness_strict (storedAt now ttl ε : Int) (hε : 0 < ε) :
    (isExpired storedAt now ttl = true ↔ now - storedAt > ttl) ∧
    isExpired storedAt (storedAt + ttl) ttl = false ∧
    isExpired storedAt (storedAt + ttl + ε) ttl = true := by
  refine ⟨by simp [isExpired], ?_, ?_⟩
  · simp [isExpired]
  · simp only [isExpired, decide_eq_true_eq]
    omega

/-- C8, witness for `freshness_strict` at concrete times. -/
theorem freshness_strict_witness :
    (isExpired 0 7 5 = true ↔ (7 : Int) - 0 > 5) ∧
    isExpired 0 (0 + 5) 5 = false ∧
    isExpired 0 (0 + 5 + 1) 5 = true :=
  freshness_strict 0 7 5 1 (by decide)

/-! ### C2: stale static entries and the background refresh -/

/-- A static entry stored at time 0 (so 25 hours old at `staleNow`). -/
def staleEntry : Response :=
  { status := 200, statusText := "OK", headers := [], swTimestamp := some 0
    body := "old-styles" }

/-- The fresh 200 body the network would return for the refresh. -/
def freshNetEntry : Response :=
  { status := 200, statusText := "OK", headers := [], swTimestamp := none
    body := "new-styles" }

/-- A static-class request for a manifest URL. -/
def staleReq : Request :=
  { url := "/styles.css", hostname := "localhost", method := "GET", accept := none }

/-- Storage holding only the stale entry, in the static namespace. -/
def staleSt : CacheStorage := [(CACHE_NAME, [("/styles.css", staleEntry)])]

/-- 25 hours in milliseconds — one hour past `STATIC_CACHE_DURATION`. -/
def staleNow : Nat := 90000000

/-- C2, evaluation of the code at the failing input: a static request whose
cache entry is 25 hours old, with the network available and returning a new
body.  The entry is expired, the stale entry is indeed returned, but no
background refetch is issued and the storage is byte-for-byte unchanged, so
the next request for the same URL returns the stale body again — not the new
one the claim promises.  (Cause: sw.js line 162 reads the identifier
`event`, unbound inside `handleStaticRequest`; the ReferenceError is caught
by the handler's own catch block, and `updateStaticCache` is never reached.)
The last conjunct shows what the intended call would have done: running
`updateStaticCache` on the same input does overwrite the entry with the
newly stamped body. -/
theorem static_stale_refresh_bug :
    isExpired 0 (staleNow : Int) STATIC_CACHE_DURATION = true ∧
    (handleStaticRequest (fun _ => some freshNetEntry) staleNow staleSt staleReq).response
      = staleEntry ∧
    (handleStaticRequest (fun _ => some freshNetEntry) staleNow staleSt staleReq).bgFetches
      = [] ∧
    (handleStaticRequest (fun _ => some freshNetEntry) staleNow staleSt staleReq).netFetches
      = [] ∧
    (handleStaticRequest (fun _ => some freshNetEntry) staleNow staleSt staleReq).storage
      = staleSt ∧
    (handleStaticRequest (fun _ => some freshNetEntry) staleNow
        (handleStaticRequest (fun _ => some freshNetEntry) staleNow staleSt staleReq).storage
        staleReq).response = staleEntry ∧
    cacheMatch (updateStaticCache (fun _ => some freshNetEntry) staleNow staleSt staleReq.url)
        CACHE_NAME staleReq.url = some (withTimestamp freshNetEntry staleNow) := by
  decide

/-! ### C9: static cache hits served without the network -/

/-- C9: whenever a static-class request finds a cache entry — whatever its
age, the over-TTL case included — that stored entry itself is the response,
and no network fetch is awaited on the response path (and no background
fetch is issued either). -/
theorem static_hit_no_network (f : String → Option Response) (now : Nat)
    (st : CacheStorage) (req : Request) (c : Response)
    (h : cachesMatch st req.url = some c) :
    (handleStaticRequest f now st req).response = c ∧
    (handleStaticRequest f now st req).netFetches = [] ∧
    (handleStaticRequest f now st req).bgFetches = [] := by
  rw [static_hit_result f now st req c h]
  exact ⟨rfl, rfl, rfl⟩

/-- C9, witness for `static_hit_no_network` at the 25-hour-old entry of
`staleSt`, with the network available. -/
theorem static_hit_no_network_witness :
    (handleStaticRequest (fun _ => some freshNetEntry) staleNow staleSt staleReq).response
      = staleEntry ∧
    (handleStaticRequest (fun _ => some freshNetEntry) staleNow staleSt staleReq).netFetches
      = [] ∧
    (handleStaticRequest (fun _ => some freshNetEntry) staleNow staleSt staleReq).bgFetches
      = [] :=
  static_hit_no_network (fun _ => some freshNetEntry) staleNow staleSt staleReq
    staleEntry (by decide)

/-! ### C10: namespace scoping of cache lookups -/

/-- C10: static- and dynamic-class cache consultations go through the
whole-storage `caches.match`, so with the only entry for a URL sitting in an
arbitrary namespace `n`, both handlers find and return it; the api handler's
failure-path lookup is scoped to the api namespace, so with `n` different
from `apiNamespace` it misses the same entry and synthesizes the offline
response instead. -/
theorem lookup_across_namespaces (f : String → Option Response) (now : Nat)
    (req : Request) (n : String) (c : Response)
    (hf : f req.url = none) (hn : n ≠ apiNamespace) :
    (handleStaticRequest f now [(n, [(req.url, c)])] req).response = c ∧
    (handleDynamicRequest f [(n, [(req.url, c)])] req).response = c ∧
    (handleApiRequest f now [(n, [(req.url, c)])] req).response = offlineApiResponse := by
  have hmatch : cachesMatch [(n, [(req.url, c)])] req.url = some c := by
    simp [cachesMatch, cacheFind]
  have hbeq : (n == apiNamespace) = false := beq_eq_false_iff_ne.mpr hn
  refine ⟨?_, ?_, ?_⟩
  · rw [static_hit_result f now _ req c hmatch]
  · simp [handleDynamicRequest, hf, hmatch]
  · simp [handleApiRequest, hf, handleApiFallback, cachesOpen, cacheMatch,
      cacheFind, List.find?, hbeq]

/-- C10, witness for `lookup_across_namespaces` with the entry stored in the
static namespace `CACHE_NAME`. -/
theorem lookup_across_namespaces_witness :
    (handleStaticRequest (fun _ => none) 0
        [(CACHE_NAME, [(sampleReq.url, sampleEntry)])] sampleReq).response = sampleEntry ∧
    (handleDynamicRequest (fun _ => none)
        [(CACHE_NAME, [(sampleReq.url, sampleEntry)])] sampleReq).response = sampleEntry ∧
    (handleApiRequest (fun _ => none) 0
        [(CACHE_NAME, [(sampleReq.url, sampleEntry)])] sampleReq).response
      = offlineApiResponse :=
  lookup_across_namespaces (fun _ => none) 0 sampleReq CACHE_NAME sampleEntry
    rfl (by decide)

/-! ### C5: non-2xx responses versus transport failures -/

/-- C5, counterexample to the claim as stated.  For the static and dynamic
classes a completed non-2xx response is not treated like a transport
failure: with an empty cache, a 404 from the network is returned raw to the
caller by both handlers, while a transport failure on the same input drives
the fallback logic and yields the synthesized 503. -/
theorem nonOk_surfaced_counterexample :
    notFoundResponse.ok = false ∧
    (handleStaticRequest (fun _ => some notFoundResponse) 0 [] sampleReq).response
      = notFoundResponse ∧
    (handleStaticRequest (fun _ => none) 0 [] sampleReq).response
      = serviceUnavailableResponse ∧
    (handleDynamicRequest (fun _ => some notFoundResponse) [] sampleReq).response
      = notFoundResponse ∧
    (handleDynamicRequest (fun _ => none) [] sampleReq).response
      = serviceUnavailableResponse := by
  decide

/-- C5, amended: only the api handler folds a completed non-2xx response
into the transport-failure path (the explicit `throw` lands it in the same
catch block, so the two oracles produce identical results); the static and
dynamic handlers catch transport failures only, and hand a completed non-2xx
response back to the caller unchanged and uncached. -/
theorem nonOk_handling_amended (now : Nat) (st : CacheStorage) (req : Request)
    (nr : Response) (hok : nr.ok = false) :
    handleApiRequest (fun _ => some nr) now st req
      = handleApiRequest (fun _ => none) now st req ∧
    (cachesMatch st req.url = none →
      (handleStaticRequest (fun _ => some nr) now st req).response = nr ∧
      (handleStaticRequest (fun _ => some nr) now st req).storage = st) ∧
    (handleDynamicRequest (fun _ => some nr) st req).response = nr ∧
    (handleDynamicRequest (fun _ => some nr) st req).storage = st := by
  refine ⟨?_, ?_, ?_, ?_⟩
  · simp [handleApiRequest, hok]
  · intro hm
    simp [handleStaticRequest, hm, hok]
  · simp [handleDynamicRequest, hok]
  · simp [handleDynamicRequest, hok]

/-- C5, witness for `nonOk_handling_amended` at a concrete 404. -/
theorem nonOk_handling_amended_witness :
    handleApiRequest (fun _ => some notFoundResponse) 0 [] sampleReq
      = handleApiRequest (fun _ => none) 0 [] sampleReq ∧
    (handleStaticRequest (fun _ => some notFoundResponse) 0 [] sampleReq).response
      = notFoundResponse ∧
    (handleDynamicRequest (fun _ => some notFoundResponse) [] sampleReq).response
      = notFoundResponse := by
  have h := nonOk_handling_amended 0 [] sampleReq notFoundResponse rfl
  exact ⟨h.1, (h.2.1 rfl).1, h.2.2.1⟩

/-! ### C6: successful api fetches always overwrite -/

/-- C6: when the network fetch of an api-class request completes 2xx, the
network response itself is returned, exactly one network attempt was made,
and the api-namespace entry for the request URL now holds that body stamped
with `storedAt = now` — for every prior cache state, fresh entry or not, so
the cache is consulted only on the failure path. -/
theorem api_success_overwrites (f : String → Option Response) (now : Nat)
    (st : CacheStorage) (req : Request) (nr : Response)
    (hf : f req.url = some nr) (hok : nr.ok = true) :
    (handleApiRequest f now st req).response = nr ∧
    (handleApiRequest f now st req).netFetches = [req.url] ∧
    cacheMatch (handleApiRequest f now st req).storage apiNamespace req.url
      = some (withTimestamp nr now) := by
  simp [handleApiRequest, hf, hok, cacheMatch_cachePut_open]

/-- C6, witness for `api_success_overwrites` on an empty cache. -/
theorem api_success_overwrites_witness :
    (handleApiRequest (fun _ => some okNetResponse) 7 [] sampleReq).response
      = okNetResponse ∧
    (handleApiRequest (fun _ => some okNetResponse) 7 [] sampleReq).netFetches
      = [sampleReq.url] ∧
    cacheMatch (handleApiRequest (fun _ => some okNetResponse) 7 [] sampleReq).storage
        apiNamespace sampleReq.url = some (withTimestamp okNetResponse 7) :=
  api_success_overwrites (fun _ => some okNetResponse) 7 [] sampleReq okNetResponse
    rfl rfl

/-! ### C7: the api failure path -/

/-- C7: when the api-class network attempt fails, a cached entry aged at
most `API_CACHE_DURATION` is returned; an expired entry is deleted and the
request falls through to the synthesized offline response; with no entry the
offline response is returned directly — and that response carries status 503
and a body with the explicit `"offline":true` flag. -/
theorem api_failure_fallback_paths (f : String → Option Response) (now : Nat)
    (st : CacheStorage) (req : Request) (hf : f req.url = none) :
    (∀ c ts, cacheMatch (cachesOpen st apiNamespace) apiNamespace req.url = some c →
      c.swTimestamp = some ts →
      (((now : Int) - ts ≤ API_CACHE_DURATION →
          (handleApiRequest f now st req).response = c) ∧
       ((now : Int) - ts > API_CACHE_DURATION →
          (handleApiRequest f now st req).response = offlineApiResponse ∧
          (handleApiRequest f now st req).storage
            = cacheDelete (cachesOpen st apiNamespace) apiNamespace req.url))) ∧
    (cacheMatch (cachesOpen st apiNamespace) apiNamespace req.url = none →
      (handleApiRequest f now st req).response = offlineApiResponse) ∧
    offlineApiResponse.status = 503 ∧
    strIncludes offlineApiResponse.body "\"offline\":true" = true := by
  have hun : handleApiRequest f now st req = handleApiFallback now st req [req.url] := by
    simp [handleApiRequest, hf]
  refine ⟨?_, ?_, rfl, by decide⟩
  · intro c ts hc hts
    constructor
    · intro hfresh
      have hexp : isExpired (ts : Int) (now : Int) API_CACHE_DURATION = false := by
        simp only [isExpired, decide_eq_false_iff_not]
        omega
      simp [hun, handleApiFallback, hc, hts, hexp]
    · intro hstale
      have hexp : isExpired (ts : Int) (now : Int) API_CACHE_DURATION = true := by
        simp only [isExpired, decide_eq_true_eq]
        omega
      simp [hun, handleApiFallback, hc, hts, hexp]
  · intro hm
    simp [hun, handleApiFallback, hm]

/-- Storage holding one fresh api-namespace entry for `sampleReq`. -/
def apiFreshSt : CacheStorage := [(apiNamespace, [(sampleReq.url, sampleEntry)])]

/-- C7, witness for `api_failure_fallback_paths`: with a 4 ms-old entry and
the network down, the cached entry is served. -/
theorem api_failure_fallback_paths_witness :
    (handleApiRequest (fun _ => none) 9 apiFreshSt sampleReq).response = sampleEntry := by
  have h := api_failure_fallback_paths (fun _ => none) 9 apiFreshSt sampleReq rfl
  exact (h.1 sampleEntry 5 (by decide) rfl).1 (by decide)
